import Mathlib

/-!
Verification of the patra-benchmarks measurement pipeline.

This file gives a shallow embedding of the benchmark runner clients
(src/mcp/client.py, src/rest_mcp/client.py, src/layered_mcp/client.py,
src/rest/client.py) and of the offline aggregator (src/analysis/analysis.py),
and proves the behavioural properties stated about them.

Modelling conventions used throughout:

* Wall-clock reads (time.perf_counter) are modelled by a function
  clock : Nat → ℚ giving the value of the k-th clock read of the run;
  monotonicity of the clock is an explicit hypothesis where needed.
* A remote call either returns normally or raises; this is modelled by a
  Bool-valued oracle (ok i = whether the i-th call returns) or by an
  Option-valued outcome (some v = returned, carrying measured data;
  none = raised an exception).
* Files are modelled by their parsed content: Option T, where none means the
  file does not exist.
* Floating point numbers are modelled by ℚ for recorded data and by ℝ where
  the analysis applies a square root (standard deviations, error bars).
-/

/-! ### Python string ordering

CPython compares strings (and pathlib Paths under one parent directory)
lexicographically by Unicode code point.  `lexLt` is that strict order on code
point sequences, `pyLt`/`pyLe` lift it to strings. -/

/-- Strict lexicographic order on code-point lists: a proper prefix is smaller,
otherwise the first differing position decides. -/
def lexLt : List Nat → List Nat → Bool
  | _, [] => false
  | [], _ :: _ => true
  | a :: as, b :: bs => a < b || (a == b && lexLt as bs)

/-- Python `a < b` on strings: lexicographic comparison of code points. -/
def pyLt (a b : String) : Bool :=
  lexLt (a.data.map Char.toNat) (b.data.map Char.toNat)

/-- Python `a <= b` on strings (the total order used by `sorted`). -/
def pyLe (a b : String) : Bool := !(pyLt b a)

/-- `pyLe` as a Prop-valued relation, for use with `List.insertionSort`. -/
def pyLeRel (a b : String) : Prop := pyLe a b = true

instance pyLeRelDec : DecidableRel pyLeRel :=
  fun a b => instDecidableEqBool (pyLe a b) true

/-- Python `s.startswith(pre)`. -/
def startswith (s pre : String) : Bool := List.isPrefixOf pre.data s.data

/-! ### src/analysis/analysis.py -/

/-- The run-directory names found under a results root: the names of the
directory entries that are directories and whose name starts with "run_"
(the list comprehension in `latest_run_dir`).  An entry is modelled as a
(name, is-directory) pair. -/
def runDirsOf (entries : List (String × Bool)) : List String :=
  (entries.filter (fun p => p.2 && startswith p.1 ("run_"))).map Prod.fst

/-- Python `sorted(l)[-1]` for a nonempty list of strings: last element of the
ascending sort.  (`sorted` is a stable ascending sort; for the total string
order any correct sort yields the same sequence, modelled here by insertion
sort.) -/
def sortedLast (l : List String) (h : l ≠ []) : String :=
  (l.insertionSort pyLeRel).getLast (by
    intro hnil
    exact h (List.length_eq_zero.mp (by
      rw [← List.length_insertionSort pyLeRel l, hnil, List.length_nil])))

/-- `latest_run_dir` from src/analysis/analysis.py.

```python
def latest_run_dir(root: Path) -> Path:
    if not root.exists():
        raise FileNotFoundError(f"Directory does not exist: {root}")
    run_dirs = [p for p in root.iterdir() if p.is_dir() and p.name.startswith("run_")]
    if not run_dirs:
        return root
    return sorted(run_dirs)[-1]
```

The filesystem is modelled by `rootExists` and the list of entries of the
root.  Paths sharing the parent `root` compare exactly as their names do, so
the function works on names; the raised FileNotFoundError is the
`Except.error` case. -/
def latest_run_dir (rootExists : Bool) (root : String)
    (entries : List (String × Bool)) : Except String String :=
  if !rootExists then
    Except.error (("Directory does not exist: ") ++ root)
  else
    if h : runDirsOf entries = [] then Except.ok root
    else Except.ok (sortedLast (runDirsOf entries) h)

/-- pandas `read_csv(path, header=None)` applied to an existing file, modelled
on the parsed rows of the file: pandas raises `EmptyDataError` ("No columns to
parse from file") when the file contains no parseable row (e.g. a zero-byte
file); otherwise it returns the table of rows. -/
def pd_read_csv (rows : List (List ℚ)) : Except String (List (List ℚ)) :=
  if rows.isEmpty then
    Except.error (("EmptyDataError: No columns to parse from file"))
  else Except.ok rows

/-- Number of columns pandas infers for a header-less table: the width of the
first row. -/
def tableCols (df : List (List ℚ)) : Nat := (df.headD []).length

/-- `read_durations` from src/analysis/analysis.py.

```python
def read_durations(run_dir: Path, filename: str) -> pd.Series | None:
    path = run_dir / filename
    if not path.exists():
        return None
    df = pd.read_csv(path, header=None)
    if df.empty:
        return None
    if df.shape[1] >= 2:
        durations = df.iloc[:, 1] - df.iloc[:, 0]
    else:
        durations = df.iloc[:, 0]
    return durations.astype(float)
```

The file argument is `none` when `run_dir/filename` does not exist and
`some rows` otherwise; an uncaught pandas exception is the `Except.error`
case. -/
def read_durations (file : Option (List (List ℚ))) :
    Except String (Option (List ℚ)) :=
  match file with
  | none => Except.ok none
  | some content =>
    match pd_read_csv content with
    | Except.error e => Except.error e
    | Except.ok df =>
      if df.isEmpty then Except.ok none
      else if 2 ≤ tableCols df then
        Except.ok (some (df.map (fun r => r.getD 1 0 - r.getD 0 0)))
      else
        Except.ok (some (df.map (fun r => r.getD 0 0)))

/-- A DB-latency CSV as `read_db_latency` sees it: the code sniffs the first
line and treats the file as having a header exactly when that line contains
the substring "timestamp"; the two shapes are modelled as the two
constructors. -/
inductive DbFile where
  | withHeader (header : List String) (rows : List (List ℚ))
  | noHeader (rows : List (List ℚ))

/-- Sample mean of a list of reals (pandas `Series.mean`). -/
noncomputable def seriesMean (l : List ℝ) : ℝ := l.sum / l.length

/-- Sample standard deviation with ddof = 1 (pandas `Series.std`); on a
single-element series pandas yields NaN, a value no claim depends on. -/
noncomputable def seriesStd (l : List ℝ) : ℝ :=
  Real.sqrt (((l.map (fun x => (x - seriesMean l) ^ 2)).sum) / ((l.length : ℝ) - 1))

/-- Embedding of a recorded ℚ value into ℝ, where the analysis applies real
arithmetic (means, standard deviations). -/
noncomputable def ratCast (q : ℚ) : ℝ := q

/-- Column of a header-bearing table selected by name (pandas `df[name]`);
a missing column name is a KeyError. -/
def namedCol (header : List String) (rows : List (List ℚ)) (name : String) :
    Except String (List ℚ) :=
  if header.contains name then
    Except.ok (rows.map (fun r => r.getD (header.indexOf name) 0))
  else Except.error (("KeyError: ") ++ name)

/-- `read_db_latency` from src/analysis/analysis.py: sniff the header, compute
per-row latency in ms (`enrich_xai_analysis_timestamp - start_timestamp` with
a header, `col1 - col0` without), and return (mean, std); `none` models the
"no data" returns (missing file, empty table, too few columns). -/
noncomputable def read_db_latency (file : Option DbFile) :
    Except String (Option (ℝ × ℝ)) :=
  match file with
  | none => Except.ok none
  | some (DbFile.withHeader header rows) =>
    if rows.isEmpty then Except.ok none
    else
      match namedCol header rows ("start_timestamp"),
            namedCol header rows ("enrich_xai_analysis_timestamp") with
      | Except.ok startCol, Except.ok xaiCol =>
        let lats : List ℚ := (xaiCol.zip startCol).map (fun p => (p.1 - p.2) * 1000)
        Except.ok (some (seriesMean (lats.map ratCast), seriesStd (lats.map ratCast)))
      | Except.error e, _ => Except.error e
      | _, Except.error e => Except.error e
  | some (DbFile.noHeader rows) =>
    match pd_read_csv rows with
    | Except.error e => Except.error e
    | Except.ok df =>
      if df.isEmpty || tableCols df < 2 then Except.ok none
      else
        let lats : List ℚ := df.map (fun r => (r.getD 1 0 - r.getD 0 0) * 1000)
        Except.ok (some (seriesMean (lats.map ratCast), seriesStd (lats.map ratCast)))

/-- Per-operation summary computed by `process_operation` (means and standard
deviations in milliseconds, as printed and plotted). -/
structure OpSummary where
  rest_mean : ℝ
  rest_std : ℝ
  mcp_mean : ℝ
  mcp_std : ℝ
  rest_mcp_mean : ℝ
  rest_mcp_std : ℝ
  db_mean : ℝ
  db_std : ℝ

/-- Outcome of `process_operation` for one operation: either the comparison is
skipped with a console diagnostic (early `return` after a `print`), or a full
summary (and plot) is produced. -/
inductive OpResult where
  | skippedMissing (msg : String)
  | skippedMissingDb (msg : String)
  | summary (s : OpSummary)

/-- Whether an `OpResult` is a full summary. -/
def OpResult.isSummary : OpResult → Bool
  | OpResult.summary _ => true
  | _ => false

/-- Whether an `OpResult` is a skipped comparison (missing-data diagnostic). -/
def OpResult.isSkipped : OpResult → Bool
  | OpResult.skippedMissing _ => true
  | OpResult.skippedMissingDb _ => true
  | _ => false

/-- Mean and std (ms) of a duration series recorded in seconds, as computed in
`process_operation` (`data * 1000.0`, then pandas mean/std). -/
noncomputable def msStats (data : List ℚ) : ℝ × ℝ :=
  let ms := (data.map (fun d => d * 1000)).map ratCast
  (seriesMean ms, seriesStd ms)

/-- `process_operation` from src/analysis/analysis.py, for one operation.
Reads the operation's CSV from the three transport runs and the DB baseline,
returns early with a printed diagnostic if any is missing, otherwise computes
the ms statistics and renders the plot.  An uncaught pandas exception is the
`Except.error` case. -/
noncomputable def process_operation (operation_name : String)
    (restFile mcpFile restMcpFile : Option (List (List ℚ)))
    (dbFile : Option DbFile) : Except String OpResult := do
  let filename := operation_name ++ (".csv")
  let rest_data ← read_durations restFile
  let mcp_data ← read_durations mcpFile
  let rest_mcp_data ← read_durations restMcpFile
  let db_latency ← read_db_latency dbFile
  match rest_data, mcp_data, rest_mcp_data with
  | some rest, some mcp, some rest_mcp =>
    match db_latency with
    | none =>
      pure (OpResult.skippedMissingDb (("Missing ") ++ filename ++ (" in DB results.")))
    | some dbStats =>
      pure (OpResult.summary
        { rest_mean := (msStats rest).1, rest_std := (msStats rest).2
          mcp_mean := (msStats mcp).1, mcp_std := (msStats mcp).2
          rest_mcp_mean := (msStats rest_mcp).1, rest_mcp_std := (msStats rest_mcp).2
          db_mean := dbStats.1, db_std := dbStats.2 })
  | _, _, _ =>
    pure (OpResult.skippedMissing
      (("Missing ") ++ filename ++ (" in REST, MCP, or REST+MCP results.")))

/-- The body of `main` in src/analysis/analysis.py after run selection:
process `get_modelcard` and then `search_modelcards`, each against its four
input files.  An exception in either call would propagate (`Except.error`). -/
noncomputable def analysis_main
    (getRest getMcp getRestMcp : Option (List (List ℚ))) (getDb : Option DbFile)
    (searchRest searchMcp searchRestMcp : Option (List (List ℚ)))
    (searchDb : Option DbFile) : Except String (OpResult × OpResult) := do
  let g ← process_operation ("get_modelcard") getRest getMcp getRestMcp getDb
  let s ← process_operation ("search_modelcards") searchRest searchMcp searchRestMcp searchDb
  pure (g, s)

/-- One bar segment drawn by `plot_stacked_latency_comparison`: x position,
height, stacking offset, and the error bar passed as `yerr`. -/
structure BarSeg where
  x : Nat
  height : ℝ
  bottom : ℝ
  yerr : ℝ

instance : Inhabited BarSeg := ⟨⟨0, 0, 0, 0⟩⟩

/-- `plot_stacked_latency_comparison` from src/analysis/analysis.py, modelled
as the list of bar segments it draws, in source order: the DB baseline and the
MCP overhead on bar 0, then the DB baseline, REST overhead and MCP overhead on
bar 1.  Stacked overhead segments carry a root-sum-of-squares error bar
`np.sqrt(a_std**2 + b_std**2)`. -/
noncomputable def plot_stacked_latency_comparison
    (rest_mean_ms rest_std_ms mcp_mean_ms mcp_std_ms
     rest_mcp_mean_ms rest_mcp_std_ms db_mean_ms db_std_ms : ℝ) : List BarSeg :=
  [ ⟨0, db_mean_ms, 0, db_std_ms⟩,
    ⟨0, mcp_mean_ms - db_mean_ms, db_mean_ms,
      Real.sqrt (mcp_std_ms ^ 2 + db_std_ms ^ 2)⟩,
    ⟨1, db_mean_ms, 0, db_std_ms⟩,
    ⟨1, rest_mean_ms - db_mean_ms, db_mean_ms,
      Real.sqrt (rest_std_ms ^ 2 + db_std_ms ^ 2)⟩,
    ⟨1, rest_mcp_mean_ms - rest_mean_ms, rest_mean_ms,
      Real.sqrt (rest_mcp_std_ms ^ 2 + rest_std_ms ^ 2)⟩ ]

/-! ### Sequential latency runners

`benchmark_latency` in src/mcp/client.py (and the identical inline loops in
src/rest_mcp/client.py) reads the clock, awaits the call, reads the clock
again and appends one `[req_start_time, req_end_time]` row to the CSV — with
no try/except around the call, so an exception propagates and ends the loop.
The model returns the list of rows appended to the file: iteration `i` uses
clock reads `2*i` and `2*i + 1`, and a failed call (`ok i = false`) produces
no row and stops the run. -/
def benchmark_latency (clock : Nat → ℚ) (ok : Nat → Bool) : Nat → Nat → List (ℚ × ℚ)
  | _, 0 => []
  | i, n + 1 =>
    if ok i then (clock (2 * i), clock (2 * i + 1)) :: benchmark_latency clock ok (i + 1) n
    else []

/-- Modelled from the spec: the sequential-latency failure policy described in
spec.md ("silently skipped (no row written) in sequential latency mode", "this
iteration records nothing and the loop continues") — a failed call writes no
row and the loop continues with the next iteration.  Stated for comparison
with `benchmark_latency`, which embeds the code. -/
def benchmark_latency_skip_model (clock : Nat → ℚ) (ok : Nat → Bool) :
    Nat → Nat → List (ℚ × ℚ)
  | _, 0 => []
  | i, n + 1 =>
    if ok i then
      (clock (2 * i), clock (2 * i + 1)) :: benchmark_latency_skip_model clock ok (i + 1) n
    else benchmark_latency_skip_model clock ok (i + 1) n

/-- The two-column CSV rows written by `benchmark_latency`
(`writer.writerow([req_start_time, req_end_time])`), as a table. -/
def csv_rows (rows : List (ℚ × ℚ)) : List (List ℚ) :=
  rows.map (fun p => [p.1, p.2])

/-- `CSV_HEADERS` from src/layered_mcp/client.py. -/
def CSV_HEADERS : List String := [("total_time")]

/-- `init_csv_file` from src/layered_mcp/client.py: truncate the file and
write the header row.  The file is modelled as its list of lines. -/
def init_csv_file : List (List String) := [CSV_HEADERS]

/-- `write_latency_row` from src/layered_mcp/client.py: append one row with
the measured total round-trip time. -/
def write_latency_row (file : List (List String)) (total_time : ℚ) :
    List (List String) :=
  file ++ [[toString total_time]]

/-- The measured durations of the per-operation loop in src/layered_mcp's
`main`: iteration `i` records `perf_counter() - start`, i.e.
`clock (2*i+1) - clock (2*i)`; a failed call records nothing and the
uncaught exception stops the run. -/
def layered_run (clock : Nat → ℚ) (ok : Nat → Bool) : Nat → Nat → List ℚ
  | _, 0 => []
  | i, n + 1 =>
    if ok i then
      (clock (2 * i + 1) - clock (2 * i)) :: layered_run clock ok (i + 1) n
    else []

/-- The full CSV file produced by src/layered_mcp's `main` for one operation:
`init_csv_file`, then one `write_latency_row` per completed iteration. -/
def layered_csv (clock : Nat → ℚ) (ok : Nat → Bool) (runs : Nat) :
    List (List String) :=
  (layered_run clock ok 0 runs).foldl write_latency_row init_csv_file

/-! ### Throughput mode (src/mcp/client.py, benchmark_throughput)

The worker tasks run under asyncio's cooperative scheduler, so the shared
counter updates of the completed calls form one serialized sequence of events.
An event is the completion of one `session.call_tool` inside some worker's
`while` loop before the deadline: `some lat` for a call that returned (its
measured latency is appended and `total_requests` is incremented) and `none`
for a call that raised (caught by the `except` clause, `errors` is
incremented, and the worker's loop continues). -/

/-- The shared mutable state of `benchmark_throughput`. -/
structure ThroughputState where
  total_requests : Nat
  errors : Nat
  latencies : List ℚ

/-- The worker loops of `benchmark_throughput`, folded over the serialized
sequence of completed-call events.  A success appends its latency and
increments `total_requests`; a failure increments `errors` and the loop
continues with the next event. -/
def worker_loop (outcomes : List (Option ℚ)) (st : ThroughputState) :
    ThroughputState :=
  match outcomes with
  | [] => st
  | some lat :: rest =>
    worker_loop rest
      ⟨st.total_requests + 1, st.errors, st.latencies ++ [lat]⟩
  | none :: rest =>
    worker_loop rest ⟨st.total_requests, st.errors + 1, st.latencies⟩

/-- The dict returned by `benchmark_throughput`. -/
structure ThroughputResult where
  total_requests : Nat
  errors : Nat
  duration : ℚ
  throughput : ℚ
  latencies : List ℚ

/-- `benchmark_throughput` from src/mcp/client.py: run the workers over the
event sequence, then report
`throughput = total_requests / actual_duration if actual_duration > 0 else 0`,
where `actual_duration` is the measured elapsed wall-clock time. -/
def benchmark_throughput (outcomes : List (Option ℚ)) (actual_duration : ℚ) :
    ThroughputResult :=
  let st := worker_loop outcomes ⟨0, 0, []⟩
  { total_requests := st.total_requests
    errors := st.errors
    duration := actual_duration
    throughput :=
      if 0 < actual_duration then (st.total_requests : ℚ) / actual_duration else 0
    latencies := st.latencies }

/-! ### Detailed raw-socket latency (src/rest/client.py) -/

/-- The outcome of each blocking stage of `measure_detailed_latency`:
`some d` if the stage completes with measured duration `d`, `none` if it
raises.  Stages are attempted in source order; the SSL stages only for an
https URL. -/
structure StageOutcomes where
  dns : Option ℚ
  sockCreate : Option ℚ
  tcpConnect : Option ℚ
  sslContext : Option ℚ
  sslHandshake : Option ℚ
  requestSend : Option ℚ
  ttfb : Option ℚ
  responseRead : Option ℚ
  sockClose : Option ℚ

/-- The dict returned by `measure_detailed_latency` (all timing variables are
initialized to 0 before the `try` block). -/
structure DetailedLatency where
  dns_lookup : ℚ
  socket_creation : ℚ
  tcp_connect : ℚ
  ssl_context_creation : ℚ
  ssl_handshake : ℚ
  request_send : ℚ
  time_to_first_byte : ℚ
  response_read : ℚ
  socket_close : ℚ
  server_processing : ℚ
  total_time : ℚ

/-- Internal state while executing the `try` block of
`measure_detailed_latency`: the timing variables gathered so far plus whether
a socket is currently open. -/
structure MeasureAcc where
  res : DetailedLatency
  sockOpen : Bool

/-- The `except` handler of `measure_detailed_latency`: print the error and
close the socket best-effort (`if sock: sock.close()`), swallowing the
exception. -/
def handle_exception (acc : MeasureAcc) : MeasureAcc :=
  { acc with sockOpen := false }

/-- One timed stage inside the `try` block: if the blocking call raises, the
remaining stages (`k`) are not executed and control transfers to the `except`
handler; otherwise record the duration (`upd`) and continue. -/
def stage (out : Option ℚ) (upd : ℚ → MeasureAcc → MeasureAcc)
    (k : MeasureAcc → MeasureAcc) (acc : MeasureAcc) : MeasureAcc :=
  match out with
  | none => handle_exception acc
  | some v => k (upd v acc)

/-- `measure_detailed_latency` from src/rest/client.py: attempt the stages in
order (DNS lookup, socket creation, TCP connect, then for https the SSL
context creation and handshake, request send, time to first byte, response
read, socket close), assign `server_processing = time_to_first_byte` as the
final statement of the `try` block, and always return the dict with
`total_time` measured outside the `try`.  Returns the dict together with
whether a socket is left open. -/
def measure_detailed_latency (is_https : Bool) (o : StageOutcomes)
    (total : ℚ) : DetailedLatency × Bool :=
  let k9 : MeasureAcc → MeasureAcc := fun a =>
    { a with res := { a.res with server_processing := a.res.time_to_first_byte } }
  let k8 := stage o.sockClose
    (fun v a => { res := { a.res with socket_close := v }, sockOpen := false }) k9
  let k7 := stage o.responseRead
    (fun v a => { a with res := { a.res with response_read := v } }) k8
  let k6 := stage o.ttfb
    (fun v a => { a with res := { a.res with time_to_first_byte := v } }) k7
  let k5 := stage o.requestSend
    (fun v a => { a with res := { a.res with request_send := v } }) k6
  let kssl :=
    if is_https then
      stage o.sslContext
        (fun v a => { a with res := { a.res with ssl_context_creation := v } })
        (stage o.sslHandshake
          (fun v a => { a with res := { a.res with ssl_handshake := v } }) k5)
    else k5
  let k3 := stage o.tcpConnect
    (fun v a => { a with res := { a.res with tcp_connect := v } }) kssl
  let k2 := stage o.sockCreate
    (fun v a => { res := { a.res with socket_creation := v }, sockOpen := true }) k3
  let k1 := stage o.dns
    (fun v a => { a with res := { a.res with dns_lookup := v } }) k2
  let acc := k1 ⟨⟨0, 0, 0, 0, 0, 0, 0, 0, 0, 0, 0⟩, false⟩
  ({ acc.res with total_time := total }, acc.sockOpen)

/-! ### Properties of the Python string order -/

theorem lexLt_irrefl (l : List Nat) : lexLt l l = false := by
  induction l with
  | nil => rfl
  | cons a as ih => simp [lexLt, ih]

theorem lexLt_asymm : ∀ a b : List Nat, lexLt a b = true → lexLt b a = false := by
  intro a
  induction a with
  | nil =>
    intro b hab
    cases b with
    | nil => simp [lexLt] at hab
    | cons c cs => rfl
  | cons a as ih =>
    intro b hab
    cases b with
    | nil => simp [lexLt] at hab
    | cons c cs =>
      simp [lexLt] at hab ⊢
      rcases hab with h | ⟨he, hr⟩
      · exact ⟨by omega, fun he => absurd he (by omega)⟩
      · exact ⟨by omega, fun _ => ih cs hr⟩

theorem lexLt_trans : ∀ a b c : List Nat,
    lexLt a b = true → lexLt b c = true → lexLt a c = true := by
  intro a
  induction a with
  | nil =>
    intro b c _ hbc
    cases c with
    | nil =>
      cases b with
      | nil => simp [lexLt] at hbc
      | cons x xs => simp [lexLt] at hbc
    | cons x xs => simp [lexLt]
  | cons a as ih =>
    intro b c hab hbc
    cases b with
    | nil => simp [lexLt] at hab
    | cons b bs =>
      cases c with
      | nil => simp [lexLt] at hbc
      | cons c cs =>
        simp [lexLt] at hab hbc ⊢
        rcases hab with h1 | ⟨he1, hr1⟩
        · rcases hbc with h2 | ⟨he2, hr2⟩
          · exact Or.inl (by omega)
          · exact Or.inl (by omega)
        · rcases hbc with h2 | ⟨he2, hr2⟩
          · exact Or.inl (by omega)
          · exact Or.inr ⟨by omega, ih bs cs hr1 hr2⟩

theorem lexLt_connex : ∀ a b : List Nat,
    lexLt a b = false → lexLt b a = false → a = b := by
  intro a
  induction a with
  | nil =>
    intro b hab _
    cases b with
    | nil => rfl
    | cons c cs => simp [lexLt] at hab
  | cons a as ih =>
    intro b hab hba
    cases b with
    | nil => simp [lexLt] at hba
    | cons b bs =>
      simp [lexLt] at hab hba
      have hae : a = b := by omega
      subst hae
      rcases hab.2 rfl, hba.2 rfl with ⟨h1, h2⟩
      exact congrArg (a :: ·) (ih bs (hab.2 rfl) (hba.2 rfl)) ▸ rfl

theorem pyLe_refl (a : String) : pyLeRel a a := by
  unfold pyLeRel pyLe pyLt
  simp [lexLt_irrefl]

theorem pyLe_total (a b : String) : pyLeRel a b ∨ pyLeRel b a := by
  unfold pyLeRel pyLe pyLt
  rcases hb : lexLt (b.data.map Char.toNat) (a.data.map Char.toNat) with _ | _
  · left; simp [hb]
  · right; simp [lexLt_asymm _ _ hb]

theorem pyLe_trans (a b c : String) :
    pyLeRel a b → pyLeRel b c → pyLeRel a c := by
  unfold pyLeRel pyLe pyLt
  intro hab hbc
  simp only [Bool.not_eq_true'] at hab hbc ⊢
  by_contra hc
  have hc' : lexLt (c.data.map Char.toNat) (a.data.map Char.toNat) = true := by
    cases h : lexLt (c.data.map Char.toNat) (a.data.map Char.toNat) with
    | false => exact absurd h hc
    | true => rfl
  rcases h2 : lexLt (a.data.map Char.toNat) (b.data.map Char.toNat) with _ | _
  · have hab' : a.data.map Char.toNat = b.data.map Char.toNat :=
      lexLt_connex _ _ h2 hab
    rw [hab'] at hc'
    rw [hc'] at hbc
    exact absurd hbc (by simp)
  · have := lexLt_trans _ _ _ hc' h2
    rw [this] at hbc
    exact absurd hbc (by simp)

/-- In a list that is pairwise `pyLeRel`-ascending, the last element is an
upper bound of every element. -/
theorem pairwise_getLast_max :
    ∀ (l : List String) (h : l ≠ []), l.Pairwise pyLeRel →
      ∀ x ∈ l, pyLeRel x (l.getLast h) := by
  intro l
  induction l with
  | nil => intro h; exact absurd rfl h
  | cons a t ih =>
    intro h hp x hx
    cases t with
    | nil =>
      have hxa : x = a := by simpa using hx
      subst hxa
      exact pyLe_refl x
    | cons b t2 =>
      rw [List.getLast_cons (by simp)]
      rcases List.mem_cons.mp hx with rfl | hx'
      · exact (List.pairwise_cons.mp hp).1 _ (List.getLast_mem (by simp))
      · exact ih (by simp) (List.pairwise_cons.mp hp).2 x hx'

/-- `sortedLast` returns an element of the list. -/
theorem sortedLast_mem (l : List String) (h : l ≠ []) : sortedLast l h ∈ l := by
  unfold sortedLast
  exact (List.perm_insertionSort pyLeRel l).mem_iff.mp (List.getLast_mem _)

/-- `sortedLast` is an upper bound of the list in the Python string order. -/
theorem sortedLast_max (l : List String) (h : l ≠ []) :
    ∀ x ∈ l, pyLeRel x (sortedLast l h) := by
  intro x hx
  unfold sortedLast
  have hs : (l.insertionSort pyLeRel).Pairwise pyLeRel :=
    @List.sorted_insertionSort String pyLeRel pyLeRelDec ⟨pyLe_total⟩ ⟨pyLe_trans⟩ l
  exact pairwise_getLast_max _ _ hs x
    ((List.perm_insertionSort pyLeRel l).mem_iff.mpr hx)

/-- C3: `latest_run_dir` returns the lexicographically greatest "run_"
subdirectory of an existing root (in particular run_20250102_000000 over
run_20250101_000000), returns the root itself when no such subdirectory
exists, and fails with a directory-not-found error when the root does not
exist. -/
theorem c3_latest_run_dir (root : String) (entries : List (String × Bool)) :
    latest_run_dir false root entries
        = Except.error ((("Directory does not exist: ")) ++ root)
    ∧ (runDirsOf entries = [] → latest_run_dir true root entries = Except.ok root)
    ∧ (∀ hne : runDirsOf entries ≠ [],
        latest_run_dir true root entries
            = Except.ok (sortedLast (runDirsOf entries) hne)
        ∧ sortedLast (runDirsOf entries) hne ∈ runDirsOf entries
        ∧ ∀ x ∈ runDirsOf entries, pyLeRel x (sortedLast (runDirsOf entries) hne))
    ∧ latest_run_dir true root
        [(("run_20250101_000000"), true), (("run_20250102_000000"), true)]
        = Except.ok (("run_20250102_000000")) := by
  refine ⟨rfl, fun he => by simp [latest_run_dir, he], fun hne => ⟨?_, ?_, ?_⟩, by rfl⟩
  · simp [latest_run_dir, hne]
  · exact sortedLast_mem _ hne
  · exact sortedLast_max _ hne

/-- Witness for C3 at a concrete filesystem: root "res" with the two run
directories of the spec example. -/
theorem c3_latest_run_dir_witness :
    runDirsOf [(("run_20250101_000000"), true), (("run_20250102_000000"), true)] ≠ []
    ∧ latest_run_dir true ("res")
        [(("run_20250101_000000"), true), (("run_20250102_000000"), true)]
        = Except.ok (("run_20250102_000000"))
    ∧ pyLeRel ("run_20250101_000000") ("run_20250102_000000")
    ∧ latest_run_dir false ("res") []
        = Except.error (("Directory does not exist: res")) := by
  have hne : runDirsOf
      [(("run_20250101_000000"), true), (("run_20250102_000000"), true)] ≠ [] := by
    decide
  have h := c3_latest_run_dir ("res")
    [(("run_20250101_000000"), true), (("run_20250102_000000"), true)]
  have hmax := (h.2.2.1 hne).2.2 ("run_20250101_000000") (by decide)
  have hval : sortedLast (runDirsOf
      [(("run_20250101_000000"), true), (("run_20250102_000000"), true)]) hne
      = ("run_20250102_000000") := by rfl
  exact ⟨hne, h.2.2.2, hval ▸ hmax, h.1⟩

/-! ### The sequential latency loop: rows are the successful prefix -/

/-- The rows `benchmark_latency` appends are exactly the rows of the
iterations before the first failed call: the loop body runs for iterations
`i, i+1, ...` as long as the calls return, and the first exception ends the
loop with no row for that iteration. -/
theorem benchmark_latency_eq (clock : Nat → ℚ) (ok : Nat → Bool) :
    ∀ (n i : Nat),
      benchmark_latency clock ok i n
        = ((List.range' i n).takeWhile ok).map
            (fun j => (clock (2 * j), clock (2 * j + 1))) := by
  intro n
  induction n with
  | zero => intro i; rfl
  | succ n ih =>
    intro i
    rw [List.range'_succ]
    rcases h : ok i with _ | _
    · simp [benchmark_latency, h, List.takeWhile_cons]
    · simp [benchmark_latency, h, List.takeWhile_cons, ih (i + 1)]

/-- Same characterization for the per-iteration durations recorded by the
layered client loop. -/
theorem layered_run_eq (clock : Nat → ℚ) (ok : Nat → Bool) :
    ∀ (n i : Nat),
      layered_run clock ok i n
        = ((List.range' i n).takeWhile ok).map
            (fun j => clock (2 * j + 1) - clock (2 * j)) := by
  intro n
  induction n with
  | zero => intro i; rfl
  | succ n ih =>
    intro i
    rw [List.range'_succ]
    rcases h : ok i with _ | _
    · simp [layered_run, h, List.takeWhile_cons]
    · simp [layered_run, h, List.takeWhile_cons, ih (i + 1)]

/-- Appending rows with `write_latency_row` grows the file by one line per
row. -/
theorem foldl_write_latency_row_length :
    ∀ (rows : List ℚ) (file : List (List String)),
      (rows.foldl write_latency_row file).length = file.length + rows.length := by
  intro rows
  induction rows with
  | nil => intro file; simp
  | cons a l ih =>
    intro file
    simp [List.foldl_cons, ih, write_latency_row]
    omega

/-- The sequential loop never writes more rows than requested. -/
theorem benchmark_latency_length_le (clock : Nat → ℚ) (ok : Nat → Bool)
    (i n : Nat) : (benchmark_latency clock ok i n).length ≤ n := by
  rw [benchmark_latency_eq clock ok n i, List.length_map]
  calc ((List.range' i n).takeWhile ok).length
      ≤ (List.range' i n).length := (List.takeWhile_sublist ok).length_le
    _ = n := List.length_range' i 1 n

/-- C1 counterexample: two requested iterations, the call of iteration 0
raises and the call of iteration 1 would succeed.  The code writes no row at
all — the uncaught exception aborts the loop — whereas the claimed
skip-and-continue policy would retain the row of iteration 1. -/
theorem c1_counterexample :
    benchmark_latency (fun k => (k : ℚ)) (fun i => decide (1 ≤ i)) 0 2 = []
    ∧ benchmark_latency_skip_model (fun k => (k : ℚ)) (fun i => decide (1 ≤ i)) 0 2
        = [((fun k => (k : ℚ)) 2, (fun k => (k : ℚ)) 3)] :=
  ⟨rfl, rfl⟩

/-- C1 (amended): in sequential latency mode a failed call writes no CSV row
for its iteration, but the exception propagates and aborts the remaining
iterations instead of continuing: the rows are exactly those of the
iterations before the first failure, so the row count can be below the
requested sample count. -/
theorem c1_failure_aborts_loop (clock : Nat → ℚ) (ok : Nat → Bool) (i n : Nat) :
    benchmark_latency clock ok i n
      = ((List.range' i n).takeWhile ok).map
          (fun j => (clock (2 * j), clock (2 * j + 1)))
    ∧ (benchmark_latency clock ok i n).length ≤ n :=
  ⟨benchmark_latency_eq clock ok n i, benchmark_latency_length_le clock ok i n⟩

/-- C2: for a requested sample count N ≥ 1 the CSV of an operation holds at
most N data rows — the two-column file of `benchmark_latency` and the
header-bearing file of the layered client alike — and when all N calls
succeed the header-bearing file has exactly N + 1 lines (1 header line plus
N data rows). -/
theorem c2_row_count (clock : Nat → ℚ) (ok : Nat → Bool) (N : Nat) (h : 1 ≤ N) :
    (benchmark_latency clock ok 0 N).length ≤ N
    ∧ (layered_csv clock ok N).length - 1 ≤ N
    ∧ ((∀ i, i < N → ok i = true) → (layered_csv clock ok N).length = N + 1) := by
  have hrun : (layered_run clock ok 0 N).length ≤ N := by
    rw [layered_run_eq clock ok N 0, List.length_map]
    calc ((List.range' 0 N).takeWhile ok).length
        ≤ (List.range' 0 N).length := (List.takeWhile_sublist ok).length_le
      _ = N := List.length_range' 0 1 N
  refine ⟨benchmark_latency_length_le clock ok 0 N, ?_, ?_⟩
  · rw [layered_csv, foldl_write_latency_row_length]
    simp [init_csv_file]
    omega
  · intro hok
    rw [layered_csv, foldl_write_latency_row_length]
    have : (layered_run clock ok 0 N).length = N := by
      rw [layered_run_eq clock ok N 0, List.length_map,
        List.takeWhile_eq_self_iff.mpr ?_, List.length_range' 0 1 N]
      intro a ha
      exact hok a (by simpa using (List.mem_range'_1.mp ha).2)
    simp [init_csv_file, this]
    omega

/-- Witness for C2 with BENCHMARK_RUNS = 5 and every call succeeding: the
header-bearing CSV has exactly 6 lines. -/
theorem c2_row_count_witness :
    1 ≤ 5
    ∧ (layered_csv (fun k => (k : ℚ)) (fun _ => true) 5).length = 5 + 1
    ∧ (benchmark_latency (fun k => (k : ℚ)) (fun _ => true) 0 5).length ≤ 5 :=
  ⟨by decide,
   (c2_row_count (fun k => (k : ℚ)) (fun _ => true) 5 (by decide)).2.2
     (fun i _ => rfl),
   (c2_row_count (fun k => (k : ℚ)) (fun _ => true) 5 (by decide)).1⟩

/-- C4: `read_durations` computes `column[1] - column[0]` on a two-or-more
column table, returns the single column directly otherwise, and yields "no
data" for a missing file — but on an existing *empty* CSV file pandas raises
`EmptyDataError` before the `df.empty` guard can run, so the empty file
surfaces as an uncaught parse error instead of the intended `None`. -/
theorem c4_read_durations :
    read_durations (some [[0, 1], [2, 5]]) = Except.ok (some [1, 3])
    ∧ read_durations (some [[7], [9]]) = Except.ok (some [7, 9])
    ∧ read_durations none = Except.ok none
    ∧ read_durations (some [])
        = Except.error (("EmptyDataError: No columns to parse from file")) := by
  refine ⟨?_, rfl, rfl, rfl⟩
  show Except.ok (some [(1 : ℚ) - 0, (5 : ℚ) - 2]) = Except.ok (some [1, 3])
  norm_num

/-- On a nonempty two-column table of (start, end) rows, `read_durations`
returns exactly the per-row differences `end - start`. -/
theorem read_durations_csv_rows (rows : List (ℚ × ℚ)) (hne : rows ≠ []) :
    read_durations (some (csv_rows rows))
      = Except.ok (some (rows.map (fun p => p.2 - p.1))) := by
  obtain ⟨q, t, rfl⟩ := List.exists_cons_of_ne_nil hne
  simp [read_durations, pd_read_csv, csv_rows, tableCols]

/-- C5: every row of the two-column (start, end) CSV written by the runner
yields, through the aggregator's `read_durations`, the duration `end - start`,
and that duration is nonnegative for every row the runner produces, because
the start clock read precedes the end clock read of the same iteration. -/
theorem c5_round_trip (clock : Nat → ℚ) (hm : Monotone clock) (ok : Nat → Bool)
    (i n : Nat) (hne : benchmark_latency clock ok i n ≠ []) :
    read_durations (some (csv_rows (benchmark_latency clock ok i n)))
        = Except.ok (some ((benchmark_latency clock ok i n).map (fun p => p.2 - p.1)))
    ∧ ∀ p ∈ benchmark_latency clock ok i n, 0 ≤ p.2 - p.1 := by
  refine ⟨read_durations_csv_rows _ hne, ?_⟩
  intro p hp
  rw [benchmark_latency_eq clock ok n i] at hp
  obtain ⟨j, _, rfl⟩ := List.mem_map.mp hp
  simpa using hm (by omega : 2 * j ≤ 2 * j + 1)

/-- Witness for C5 with the clock `k ↦ k` on one successful iteration. -/
theorem c5_round_trip_witness :
    Monotone (fun k : Nat => (k : ℚ))
    ∧ benchmark_latency (fun k : Nat => (k : ℚ)) (fun _ => true) 0 1 ≠ []
    ∧ read_durations
        (some (csv_rows (benchmark_latency (fun k : Nat => (k : ℚ)) (fun _ => true) 0 1)))
        = Except.ok (some [((1 : Nat) : ℚ) - ((0 : Nat) : ℚ)])
    ∧ 0 ≤ ((1 : Nat) : ℚ) - ((0 : Nat) : ℚ) := by
  have hm : Monotone (fun k : Nat => (k : ℚ)) := Nat.mono_cast
  have hne : benchmark_latency (fun k : Nat => (k : ℚ)) (fun _ => true) 0 1 ≠ [] := by
    simp [benchmark_latency]
  have h := c5_round_trip (fun k : Nat => (k : ℚ)) hm (fun _ => true) 0 1 hne
  exact ⟨hm, hne, h.1, h.2 (((0 : Nat) : ℚ), ((1 : Nat) : ℚ)) (by simp [benchmark_latency])⟩

/-- A present, nonempty CSV always yields some duration series (one or two
columns alike). -/
theorem read_durations_some (rows : List (List ℚ)) (h : rows ≠ []) :
    ∃ d, read_durations (some rows) = Except.ok (some d) := by
  obtain ⟨r, t, rfl⟩ := List.exists_cons_of_ne_nil h
  by_cases h2 : 2 ≤ tableCols (r :: t)
  · exact ⟨(r :: t).map (fun row => row.getD 1 0 - row.getD 0 0),
      by simp [read_durations, pd_read_csv, h2]⟩
  · exact ⟨(r :: t).map (fun row => row.getD 0 0),
      by simp [read_durations, pd_read_csv, h2]⟩

/-- C6: when `search_modelcards.csv` is absent from the REST transport's run,
the aggregator run does not raise: the search comparison is skipped with the
missing-data diagnostic, while `get_modelcard`, whose files are all present,
still gets a complete summary (and plot). -/
theorem c6_missing_file_tolerance
    (grest gmcp grestmcp : List (List ℚ)) (gdb : DbFile)
    (hgr : grest ≠ []) (hgm : gmcp ≠ []) (hgrm : grestmcp ≠ [])
    (hgdb : ∃ p, read_db_latency (some gdb) = Except.ok (some p))
    (smcp srestmcp : Option (List (List ℚ))) (sdb : Option DbFile)
    (hs1 : ∃ d, read_durations smcp = Except.ok d)
    (hs2 : ∃ d, read_durations srestmcp = Except.ok d)
    (hs3 : ∃ r, read_db_latency sdb = Except.ok r) :
    ∃ s : OpSummary,
      analysis_main (some grest) (some gmcp) (some grestmcp) (some gdb)
          none smcp srestmcp sdb
        = Except.ok (OpResult.summary s,
            OpResult.skippedMissing
              (("Missing search_modelcards.csv in REST, MCP, or REST+MCP results."))) := by
  obtain ⟨d1, h1⟩ := read_durations_some grest hgr
  obtain ⟨d2, h2⟩ := read_durations_some gmcp hgm
  obtain ⟨d3, h3⟩ := read_durations_some grestmcp hgrm
  obtain ⟨p, hp⟩ := hgdb
  obtain ⟨e1, he1⟩ := hs1
  obtain ⟨e2, he2⟩ := hs2
  obtain ⟨r3, hr3⟩ := hs3
  refine ⟨{ rest_mean := (msStats d1).1, rest_std := (msStats d1).2
            mcp_mean := (msStats d2).1, mcp_std := (msStats d2).2
            rest_mcp_mean := (msStats d3).1, rest_mcp_std := (msStats d3).2
            db_mean := p.1, db_std := p.2 }, ?_⟩
  simp only [analysis_main, process_operation]
  rw [h1, h2, h3, hp, he1, he2, hr3]
  rfl

/-- Witness for C6: concrete run directories where the search CSV is absent
from the REST arm while every `get_modelcard` input is present. -/
theorem c6_missing_file_tolerance_witness :
    (analysis_main (some [[0, 1], [0, 1]]) (some [[0, 2], [0, 2]])
        (some [[0, 3], [0, 3]])
        (some (DbFile.withHeader
          [("start_timestamp"), ("enrich_xai_analysis_timestamp")]
          [[0, 1], [0, 1]]))
        none (some [[0, 1]]) (some [[0, 1]]) none).toOption.map
      (fun pr => (pr.1.isSummary, pr.2.isSkipped)) = some (true, true) := by
  obtain ⟨s, hs⟩ := c6_missing_file_tolerance
    [[0, 1], [0, 1]] [[0, 2], [0, 2]] [[0, 3], [0, 3]]
    (DbFile.withHeader [("start_timestamp"), ("enrich_xai_analysis_timestamp")]
      [[0, 1], [0, 1]])
    (by simp) (by simp) (by simp) ⟨_, rfl⟩
    (some [[0, 1]]) (some [[0, 1]]) none ⟨_, rfl⟩ ⟨_, rfl⟩ ⟨_, rfl⟩
  rw [hs]
  rfl

/-- C7: each stacked overhead segment drawn by
`plot_stacked_latency_comparison` carries the root-sum-of-squares error bar
of the two component standard deviations, and for components 3.0 and 4.0 ms
the combined error bar is exactly 5.0 ms. -/
theorem c7_stacked_error_bar (rm rs mm ms rmm rms dm ds : ℝ) :
    ((plot_stacked_latency_comparison rm rs mm ms rmm rms dm ds).getD 1 default).yerr
        = Real.sqrt (ms ^ 2 + ds ^ 2)
    ∧ ((plot_stacked_latency_comparison rm rs mm ms rmm rms dm ds).getD 3 default).yerr
        = Real.sqrt (rs ^ 2 + ds ^ 2)
    ∧ ((plot_stacked_latency_comparison rm rs mm ms rmm rms dm ds).getD 4 default).yerr
        = Real.sqrt (rms ^ 2 + rs ^ 2)
    ∧ ((plot_stacked_latency_comparison rm rs mm 3 rmm rms dm 4).getD 1 default).yerr
        = 5 := by
  refine ⟨rfl, rfl, rfl, ?_⟩
  show Real.sqrt ((3 : ℝ) ^ 2 + 4 ^ 2) = 5
  rw [show ((3 : ℝ) ^ 2 + 4 ^ 2) = 5 ^ 2 by norm_num, Real.sqrt_sq (by norm_num)]

/-! ### Throughput mode -/

/-- Running the worker loop from any state adds one completed request with
its latency per successful event and one error per failed event; every event
of the sequence is consumed, i.e. a failure does not end the loop. -/
theorem worker_loop_spec :
    ∀ (outcomes : List (Option ℚ)) (st : ThroughputState),
      (worker_loop outcomes st).total_requests
          = st.total_requests + (outcomes.filter (fun o => o.isSome)).length
      ∧ (worker_loop outcomes st).errors
          = st.errors + (outcomes.filter (fun o => o.isNone)).length
      ∧ (worker_loop outcomes st).latencies
          = st.latencies ++ outcomes.filterMap id := by
  intro outcomes
  induction outcomes with
  | nil => intro st; simp [worker_loop]
  | cons o rest ih =>
    intro st
    cases o with
    | some v =>
      rcases ih ⟨st.total_requests + 1, st.errors, st.latencies ++ [v]⟩ with ⟨h1, h2, h3⟩
      refine ⟨?_, ?_, ?_⟩
      · show (worker_loop rest _).total_requests = _
        rw [h1]; simp [List.filter_cons]; omega
      · show (worker_loop rest _).errors = _
        rw [h2]; simp [List.filter_cons]
      · show (worker_loop rest _).latencies = _
        rw [h3]; simp [List.filterMap_cons]
    | none =>
      rcases ih ⟨st.total_requests, st.errors + 1, st.latencies⟩ with ⟨h1, h2, h3⟩
      refine ⟨?_, ?_, ?_⟩
      · show (worker_loop rest _).total_requests = _
        rw [h1]; simp [List.filter_cons]
      · show (worker_loop rest _).errors = _
        rw [h2]; simp [List.filter_cons]; omega
      · show (worker_loop rest _).latencies = _
        rw [h3]; simp [List.filterMap_cons]

/-- C8: the reported throughput is the number of completed requests divided
by the elapsed wall-clock time (0 when the elapsed time is not positive), and
every per-call failure increments the error counter while the worker loop
keeps consuming the remaining events. -/
theorem c8_throughput (outcomes : List (Option ℚ)) (d : ℚ) :
    (benchmark_throughput outcomes d).errors
        = (outcomes.filter (fun o => o.isNone)).length
    ∧ (benchmark_throughput outcomes d).total_requests
        = (outcomes.filter (fun o => o.isSome)).length
    ∧ (0 < d → (benchmark_throughput outcomes d).throughput
        = (((outcomes.filter (fun o => o.isSome)).length : ℚ)) / d)
    ∧ (¬ 0 < d → (benchmark_throughput outcomes d).throughput = 0) := by
  rcases worker_loop_spec outcomes ⟨0, 0, []⟩ with ⟨h1, h2, h3⟩
  refine ⟨?_, ?_, ?_, ?_⟩
  · show (worker_loop outcomes ⟨0, 0, []⟩).errors = _
    rw [h2]
    simp
  · show (worker_loop outcomes ⟨0, 0, []⟩).total_requests = _
    rw [h1]
    simp
  · intro hd
    show (if 0 < d then ((worker_loop outcomes ⟨0, 0, []⟩).total_requests : ℚ) / d else 0) = _
    rw [if_pos hd, h1]
    simp
  · intro hd
    show (if 0 < d then ((worker_loop outcomes ⟨0, 0, []⟩).total_requests : ℚ) / d else 0) = _
    rw [if_neg hd]

/-- Witness for C8: three events — success, failure, success — over an
elapsed wall time of 2 time units. -/
theorem c8_throughput_witness :
    (0 : ℚ) < 2
    ∧ (benchmark_throughput [some 1, none, some 2] 2).errors = 1
    ∧ (benchmark_throughput [some 1, none, some 2] 2).total_requests = 2
    ∧ (benchmark_throughput [some 1, none, some 2] 2).throughput = 1 := by
  have h := c8_throughput [some 1, none, some 2] 2
  have hd : (0 : ℚ) < 2 := by norm_num
  refine ⟨hd, ?_, ?_, ?_⟩
  · rw [h.1]; rfl
  · rw [h.2.1]; rfl
  · rw [h.2.2.1 hd]; norm_num

/-- The successful events contribute exactly one latency each. -/
theorem length_filterMap_id (l : List (Option ℚ)) :
    (l.filterMap id).length = (l.filter (fun o => o.isSome)).length := by
  induction l with
  | nil => rfl
  | cons o rest ih =>
    cases o with
    | some v => simpa [List.filterMap_cons, List.filter_cons] using ih
    | none => simpa [List.filterMap_cons, List.filter_cons] using ih

/-- Every event is either a success or a failure. -/
theorem length_filter_split (l : List (Option ℚ)) :
    (l.filter (fun o => o.isSome)).length + (l.filter (fun o => o.isNone)).length
      = l.length := by
  induction l with
  | nil => rfl
  | cons o rest ih =>
    cases o with
    | some v => simp [List.filter_cons]; omega
    | none => simp [List.filter_cons]; omega

/-- C10: each worker-loop event increments exactly one of the two counters —
a success appends exactly one latency and bumps `total_requests`, a failure
bumps `errors` — so the returned `total_requests` equals the length of the
returned latency list, and the two counters sum to the number of events. -/
theorem c10_counter_invariant (outcomes : List (Option ℚ)) (d : ℚ) :
    (benchmark_throughput outcomes d).total_requests
        = (benchmark_throughput outcomes d).latencies.length
    ∧ (benchmark_throughput outcomes d).total_requests
        + (benchmark_throughput outcomes d).errors = outcomes.length := by
  rcases worker_loop_spec outcomes ⟨0, 0, []⟩ with ⟨h1, h2, h3⟩
  have hlen := length_filterMap_id outcomes
  have hsum := length_filter_split outcomes
  constructor
  · show (worker_loop outcomes ⟨0, 0, []⟩).total_requests
        = (worker_loop outcomes ⟨0, 0, []⟩).latencies.length
    rw [h1, h3]
    simp [hlen]
  · show (worker_loop outcomes ⟨0, 0, []⟩).total_requests
        + (worker_loop outcomes ⟨0, 0, []⟩).errors = outcomes.length
    rw [h1, h2]
    simpa using hsum

/-! ### Detailed-latency failure behaviour -/

/-- C9: in the https variant of `measure_detailed_latency`, an exception at
any stage skips every later stage — all later stage durations stay at their
initial 0, `server_processing` (assigned only after the last stage) stays 0 —
the socket ends up closed (best-effort close in the handler, or never opened),
the exception is swallowed (a result dict is always returned), and
`total_time` is always the measured outer duration. -/
theorem c9_stage_failure (o : StageOutcomes) (total : ℚ) :
    (measure_detailed_latency true o total).1.total_time = total
    ∧ (o.dns = none →
        measure_detailed_latency true o total
          = (⟨0, 0, 0, 0, 0, 0, 0, 0, 0, 0, total⟩, false))
    ∧ (∀ d, o.dns = some d → o.sockCreate = none →
        measure_detailed_latency true o total
          = (⟨d, 0, 0, 0, 0, 0, 0, 0, 0, 0, total⟩, false))
    ∧ (∀ d sc, o.dns = some d → o.sockCreate = some sc → o.tcpConnect = none →
        measure_detailed_latency true o total
          = (⟨d, sc, 0, 0, 0, 0, 0, 0, 0, 0, total⟩, false))
    ∧ (∀ d sc tc, o.dns = some d → o.sockCreate = some sc →
        o.tcpConnect = some tc → o.sslContext = none →
        measure_detailed_latency true o total
          = (⟨d, sc, tc, 0, 0, 0, 0, 0, 0, 0, total⟩, false))
    ∧ (∀ d sc tc cx, o.dns = some d → o.sockCreate = some sc →
        o.tcpConnect = some tc → o.sslContext = some cx → o.sslHandshake = none →
        measure_detailed_latency true o total
          = (⟨d, sc, tc, cx, 0, 0, 0, 0, 0, 0, total⟩, false))
    ∧ (∀ d sc tc cx hk, o.dns = some d → o.sockCreate = some sc →
        o.tcpConnect = some tc → o.sslContext = some cx →
        o.sslHandshake = some hk → o.requestSend = none →
        measure_detailed_latency true o total
          = (⟨d, sc, tc, cx, hk, 0, 0, 0, 0, 0, total⟩, false))
    ∧ (∀ d sc tc cx hk rq, o.dns = some d → o.sockCreate = some sc →
        o.tcpConnect = some tc → o.sslContext = some cx →
        o.sslHandshake = some hk → o.requestSend = some rq → o.ttfb = none →
        measure_detailed_latency true o total
          = (⟨d, sc, tc, cx, hk, rq, 0, 0, 0, 0, total⟩, false))
    ∧ (∀ d sc tc cx hk rq tb, o.dns = some d → o.sockCreate = some sc →
        o.tcpConnect = some tc → o.sslContext = some cx →
        o.sslHandshake = some hk → o.requestSend = some rq →
        o.ttfb = some tb → o.responseRead = none →
        measure_detailed_latency true o total
          = (⟨d, sc, tc, cx, hk, rq, tb, 0, 0, 0, total⟩, false))
    ∧ (∀ d sc tc cx hk rq tb rd, o.dns = some d → o.sockCreate = some sc →
        o.tcpConnect = some tc → o.sslContext = some cx →
        o.sslHandshake = some hk → o.requestSend = some rq →
        o.ttfb = some tb → o.responseRead = some rd → o.sockClose = none →
        measure_detailed_latency true o total
          = (⟨d, sc, tc, cx, hk, rq, tb, rd, 0, 0, total⟩, false)) := by
  obtain ⟨dns, sc0, tc0, cx0, hk0, rq0, tb0, rd0, cl0⟩ := o
  refine ⟨?_, ?_, ?_, ?_, ?_, ?_, ?_, ?_, ?_, ?_⟩
  · cases dns with
    | none => rfl
    | some d =>
      cases sc0 with
      | none => rfl
      | some sc =>
        cases tc0 with
        | none => rfl
        | some tc =>
          cases cx0 with
          | none => rfl
          | some cx =>
            cases hk0 with
            | none => rfl
            | some hk =>
              cases rq0 with
              | none => rfl
              | some rq =>
                cases tb0 with
                | none => rfl
                | some tb =>
                  cases rd0 with
                  | none => rfl
                  | some rd =>
                    cases cl0 with
                    | none => rfl
                    | some cl => rfl
  · intro h1
    cases h1
    rfl
  · intro d h1 h2
    cases h1
    cases h2
    rfl
  · intro d sc h1 h2 h3
    cases h1
    cases h2
    cases h3
    rfl
  · intro d sc tc h1 h2 h3 h4
    cases h1
    cases h2
    cases h3
    cases h4
    rfl
  · intro d sc tc cx h1 h2 h3 h4 h5
    cases h1
    cases h2
    cases h3
    cases h4
    cases h5
    rfl
  · intro d sc tc cx hk h1 h2 h3 h4 h5 h6
    cases h1
    cases h2
    cases h3
    cases h4
    cases h5
    cases h6
    rfl
  · intro d sc tc cx hk rq h1 h2 h3 h4 h5 h6 h7
    cases h1
    cases h2
    cases h3
    cases h4
    cases h5
    cases h6
    cases h7
    rfl
  · intro d sc tc cx hk rq tb h1 h2 h3 h4 h5 h6 h7 h8
    cases h1
    cases h2
    cases h3
    cases h4
    cases h5
    cases h6
    cases h7
    cases h8
    rfl
  · intro d sc tc cx hk rq tb rd h1 h2 h3 h4 h5 h6 h7 h8 h9
    cases h1
    cases h2
    cases h3
    cases h4
    cases h5
    cases h6
    cases h7
    cases h8
    cases h9
    rfl

/-- Witness for C9: DNS and socket creation succeed (1 time unit each), the
TCP connect raises; all later stages report 0 and the socket is closed. -/
theorem c9_stage_failure_witness :
    (StageOutcomes.mk (some 1) (some 1) none none none none none none none).tcpConnect
        = none
    ∧ measure_detailed_latency true
        (StageOutcomes.mk (some 1) (some 1) none none none none none none none) 10
        = (⟨1, 1, 0, 0, 0, 0, 0, 0, 0, 0, 10⟩, false) :=
  ⟨rfl,
   (c9_stage_failure
      (StageOutcomes.mk (some 1) (some 1) none none none none none none none)
      10).2.2.2.1 1 1 rfl rfl rfl⟩
